import Mathlib

/-!
Verification of the Senegal cardiovascular synthetic-data generator
(`src/Collection_Data/générator/data.py`).

The generator is a five-stage, per-row pure computation over draws from a
shared pseudo-random stream.  We embed each stage as a Lean function of the
row's covariates and of the raw random draws that the stage consumes (one
field per `np.random.*` / `random.*` call), with `ℚ` standing for the
float64 arithmetic and explicit round-half-to-even for `np.round`.
-/

/-- Embedding of `np.clip(x, lo, hi)` = `minimum(maximum(x, lo), hi)` on rationals. -/
def clip (x lo hi : ℚ) : ℚ := min hi (max lo x)

/-- Embedding of `np.clip` on integer arrays (used for the LDL column). -/
def clipZ (x lo hi : ℤ) : ℤ := min hi (max lo x)

/-- Embedding of `np.round(x)` to an integer: round half to even (banker's rounding). -/
def npRound (x : ℚ) : ℤ :=
  if Int.fract x < 1/2 then ⌊x⌋
  else if 1/2 < Int.fract x then ⌊x⌋ + 1
  else if 2 ∣ ⌊x⌋ then ⌊x⌋ else ⌊x⌋ + 1

/-- Embedding of `np.round(x, 1)`: round half to even at one decimal. -/
def npRound1 (x : ℚ) : ℚ := (npRound (x * 10) : ℚ) / 10

theorem floor_le_npRound (x : ℚ) : ⌊x⌋ ≤ npRound x := by
  unfold npRound
  split
  · exact le_refl _
  · split
    · omega
    · split <;> omega

theorem npRound_le_ceil (x : ℚ) : npRound x ≤ ⌈x⌉ := by
  unfold npRound
  have hfc := Int.ceil_le_floor_add_one x
  rcases eq_or_ne (Int.fract x) 0 with h0 | h0
  · have : (⌈x⌉ : ℚ) = ⌊x⌋ := by
      have : x = (⌊x⌋ : ℚ) := by
        have := Int.fract_add_floor x
        rw [h0] at this; simpa using this.symm
      rw [this]; simp
    have hc : ⌈x⌉ = ⌊x⌋ := by exact_mod_cast this
    split
    · omega
    · split
      · rw [h0] at *; norm_num at *
      · split <;> (rw [h0] at *; norm_num at *)
  · have hceil : ⌈x⌉ = ⌊x⌋ + 1 := by
      have hne : x ≠ (⌊x⌋ : ℚ) := by
        intro h
        apply h0
        rw [Int.fract, h]; simp
      have h1 : ⌊x⌋ < ⌈x⌉ := by
        have := Int.floor_le x
        have := Int.le_ceil x
        have hlt : (⌊x⌋ : ℚ) < ⌈x⌉ := by
          rcases lt_or_eq_of_le (Int.floor_le x) with h | h
          · exact lt_of_lt_of_le h (Int.le_ceil x)
          · exact absurd h.symm hne
        exact_mod_cast hlt
      omega
    rw [hceil]
    split
    · omega
    · split
      · omega
      · split <;> omega

theorem npRound_bounds {x : ℚ} {a b : ℤ} (ha : (a : ℚ) ≤ x) (hb : x ≤ (b : ℚ)) :
    a ≤ npRound x ∧ npRound x ≤ b :=
  ⟨le_trans (Int.le_floor.mpr ha) (floor_le_npRound x),
   le_trans (npRound_le_ceil x) (Int.ceil_le.mpr hb)⟩

theorem clip_bounds {x lo hi : ℚ} (h : lo ≤ hi) : lo ≤ clip x lo hi ∧ clip x lo hi ≤ hi :=
  ⟨le_min h (le_max_left lo x), min_le_left hi _⟩

theorem clipZ_bounds {x lo hi : ℤ} (h : lo ≤ hi) : lo ≤ clipZ x lo hi ∧ clipZ x lo hi ≤ hi :=
  ⟨le_min h (le_max_left lo x), min_le_left hi _⟩

/-- Bounds for a rounded clipped value with integer clamp endpoints. -/
theorem npRound_clip_bounds (x : ℚ) {a b : ℤ} (h : (a : ℚ) ≤ (b : ℚ)) :
    a ≤ npRound (clip x a b) ∧ npRound (clip x a b) ≤ b :=
  npRound_bounds (clip_bounds (x := x) h).1 (clip_bounds (x := x) h).2

/-- Bounds for a one-decimal-rounded clipped value with integer clamp endpoints. -/
theorem npRound1_clip_bounds (x : ℚ) {a b : ℤ} (h : (a : ℚ) ≤ (b : ℚ)) :
    (a : ℚ) ≤ npRound1 (clip x a b) ∧ npRound1 (clip x a b) ≤ (b : ℚ) := by
  have h10 : ((10 * a : ℤ) : ℚ) ≤ clip x a b * 10 := by
    push_cast
    nlinarith [(clip_bounds (x := x) h).1]
  have h10' : clip x a b * 10 ≤ ((10 * b : ℤ) : ℚ) := by
    push_cast
    nlinarith [(clip_bounds (x := x) h).2]
  have hB := npRound_bounds h10 h10'
  have hA : ((10 * a : ℤ) : ℚ) ≤ (npRound (clip x a b * 10) : ℚ) := by exact_mod_cast hB.1
  have hBu : ((npRound (clip x a b * 10)) : ℚ) ≤ ((10 * b : ℤ) : ℚ) := by exact_mod_cast hB.2
  push_cast at hA hBu
  constructor
  · rw [npRound1]; linarith
  · rw [npRound1]; linarith

/-! ### Patient identifiers (stage 1, line 56 of the source)

`data['patient_id'] = [f'SN{str(i).zfill(6)}' for i in range(1, n_patients + 1)]`.
Decimal representation is embedded through `Nat.digits 10` (most significant
digit first), which agrees with Python `str` on every `i ≥ 1`. -/

/-- The character of a decimal digit, as produced by Python `str`. -/
def digitChar (d : ℕ) : Char := Char.ofNat (48 + d)

/-- Embedding of `str(i)` for `i ≥ 1`: decimal digits, most significant first. -/
def decRepr (n : ℕ) : List Char := ((Nat.digits 10 n).map digitChar).reverse

/-- Embedding of `s.zfill(w)`: left-pad with '0' to length at least `w`. -/
def zfill (w : ℕ) (s : List Char) : List Char := List.replicate (w - s.length) '0' ++ s

/-- Embedding of the f-string `SN` + `str(i).zfill(6)` of line 56. -/
def patientId (i : ℕ) : String := "SN" ++ String.mk (zfill 6 (decRepr i))

/-- Embedding of `range(1, n+1)` mapped through the identifier format (line 56). -/
def patientIds (n : ℤ) : List String := (List.range n.toNat).map (fun k => patientId (k + 1))

theorem digitChar_inj {d e : ℕ} (hd : d < 10) (he : e < 10) (h : digitChar d = digitChar e) :
    d = e := by
  interval_cases d <;> interval_cases e <;> revert h <;> decide

theorem decRepr_inj {i j : ℕ} (h : decRepr i = decRepr j) : i = j := by
  have h1 : (Nat.digits 10 i).map digitChar = (Nat.digits 10 j).map digitChar :=
    List.reverse_injective h
  have h2 : Nat.digits 10 i = Nat.digits 10 j := by
    have hi : ∀ d ∈ Nat.digits 10 i, d < 10 := fun d hd => Nat.digits_lt_base (by norm_num) hd
    have hj : ∀ d ∈ Nat.digits 10 j, d < 10 := fun d hd => Nat.digits_lt_base (by norm_num) hd
    revert h1 hi hj
    generalize Nat.digits 10 i = li
    generalize Nat.digits 10 j = lj
    intro h1 hi hj
    induction li generalizing lj with
    | nil => cases lj with
      | nil => rfl
      | cons b t => simp at h1
    | cons a t ih =>
      cases lj with
      | nil => simp at h1
      | cons b t' =>
        simp only [List.map_cons, List.cons.injEq] at h1
        have hab : a = b :=
          digitChar_inj (hi a (List.mem_cons_self a t)) (hj b (List.mem_cons_self b t')) h1.1
        have ht : t = t' := by
          apply ih
          · exact h1.2
          · intro d hd; exact hi d (List.mem_cons_of_mem a hd)
          · intro d hd; exact hj d (List.mem_cons_of_mem b hd)
        rw [hab, ht]
  exact Nat.digits.injective 10 h2

/-- Drop leading '0' characters. -/
def dropZeros : List Char → List Char
  | [] => []
  | c :: t => if c = '0' then dropZeros t else c :: t

theorem dropZeros_replicate_append (k : ℕ) (l : List Char) :
    dropZeros (List.replicate k '0' ++ l) = dropZeros l := by
  induction k with
  | zero => simp
  | succ m ih => simpa [List.replicate_succ, dropZeros] using ih

theorem dropZeros_zfill (w : ℕ) (l : List Char) : dropZeros (zfill w l) = dropZeros l := by
  rw [zfill, dropZeros_replicate_append]

/-- For `i ≥ 1` the decimal representation has no leading zero. -/
theorem dropZeros_decRepr {i : ℕ} (hi : 1 ≤ i) : dropZeros (decRepr i) = decRepr i := by
  have hne : i ≠ 0 := by omega
  have hnil : Nat.digits 10 i ≠ [] := Nat.digits_ne_nil_iff_ne_zero.mpr hne
  have hlast := Nat.getLast_digit_ne_zero 10 hne
  rcases List.eq_nil_or_concat (Nat.digits 10 i) with h | ⟨t, d, h⟩
  · exact absurd h hnil
  · rw [List.concat_eq_append] at h
    have hd : d ≠ 0 := by
      have hsome : (Nat.digits 10 i).getLast? = some d := by rw [h]; exact List.getLast?_concat t
      rw [List.getLast?_eq_getLast _ hnil] at hsome
      rw [Option.some.injEq] at hsome
      intro h0
      exact hlast (hsome.trans h0)
    have hdlt : d < 10 := by
      apply Nat.digits_lt_base (by norm_num) (m := i)
      rw [h]; exact List.mem_append_right t (List.mem_singleton_self d)
    have hhead : digitChar d ≠ '0' := by
      intro hc
      have : d = 0 := digitChar_inj hdlt (by norm_num) (by simpa [digitChar] using hc)
      exact hd this
    rw [decRepr, h]
    simp only [List.map_append, List.map_cons, List.map_nil, List.reverse_append,
      List.reverse_cons, List.reverse_nil, List.nil_append, List.singleton_append,
      List.cons_append, dropZeros]
    rw [if_neg hhead]

theorem patientId_inj {i j : ℕ} (hi : 1 ≤ i) (hj : 1 ≤ j) (h : patientId i = patientId j) :
    i = j := by
  apply decRepr_inj
  have hz : zfill 6 (decRepr i) = zfill 6 (decRepr j) := by
    have hdata : ("SN" ++ String.mk (zfill 6 (decRepr i))).data
        = ("SN" ++ String.mk (zfill 6 (decRepr j))).data := congrArg String.data h
    rw [String.data_append, String.data_append] at hdata
    exact List.append_cancel_left hdata
  have := congrArg dropZeros hz
  rwa [dropZeros_zfill, dropZeros_zfill, dropZeros_decRepr hi, dropZeros_decRepr hj] at this

/-! ### Constructor (lines 18-19)

`__init__` only stores `n_patients` (and the constant region / prevalence /
profession tables); it performs no validation of `n_patients`.  It is modeled
in `Except` so that the absence of a raised configuration error is explicit:
the result is `Except.ok` for every argument. -/

def cardioInit (n : ℤ) : Except String ℤ := Except.ok n

/-! ### Stage 1 — demographics (lines 49-95)

One record of raw draws per individual: `uAge1`/`uAge2` are the two
`random.random()` coins of the nested age conditional, `dYoung`/`dAdult`/
`dSenior` the three `np.random.randint` band draws, the categorical draws
(`sexe`, `region`, `profession`, `education`) are the drawn values of the
corresponding `np.random.choice` calls, and `uMilieu` is the
`random.random()` coin of the urbanicity rule. -/

structure DemoDraws where
  uAge1 : ℚ
  uAge2 : ℚ
  dYoung : ℤ
  dAdult : ℤ
  dSenior : ℤ
  sexe : String
  region : String
  uMilieu : ℚ
  profession : String
  education : String
deriving DecidableEq

/-- Lines 62-70: nested conditional age sampling. -/
def sampleAge (dr : DemoDraws) : ℤ :=
  if dr.uAge1 < 0.3 then dr.dYoung
  else if dr.uAge2 < 0.5 then dr.dAdult
  else dr.dSenior

/-- Lines 78-81: urbanicity from region plus a Bernoulli(0.3) coin. -/
def milieuOf (region : String) (u : ℚ) : String :=
  if region = "Dakar" ∨ region = "Thiès" ∨ region = "Saint-Louis" then "Urbain"
  else if u < 0.3 then "Semi-urbain" else "Rural"

structure DemoRow where
  patient_id : String
  sexe : String
  age : ℤ
  region : String
  milieu : String
  profession : String
  niveau_education : String
deriving DecidableEq

def generateDemoRow (i : ℕ) (dr : DemoDraws) : DemoRow :=
  { patient_id := patientId i
    sexe := dr.sexe
    age := sampleAge dr
    region := dr.region
    milieu := milieuOf dr.region dr.uMilieu
    profession := dr.profession
    niveau_education := dr.education }

/-! ### Stage 2 — clinical data (lines 97-166)

One Gaussian-noise draw per measurement.  The `*Base` functions are the
source's intermediate float arrays; where the source reassigns the array with
`np.clip` (systolic, diastolic, BMI, glucose) the clip is part of the base
function, where it clips only at storage (waist, total cholesterol, HDL,
triglycerides, heart rate) the base is unclipped and the stored column
applies `np.round ∘ np.clip`. -/

structure ClinicalDraws where
  nPas : ℚ
  nPad : ℚ
  nImc : ℚ
  nTour : ℚ
  nGly : ℚ
  nChol : ℚ
  nHdl : ℚ
  nTrigly : ℚ
  nFc : ℚ
deriving DecidableEq

def pasBase (age : ℤ) (dr : ClinicalDraws) : ℚ :=
  clip (115 + ((age : ℚ) - 18) * 0.5 + dr.nPas) 90 200

def padBase (age : ℤ) (dr : ClinicalDraws) : ℚ :=
  clip (75 + ((age : ℚ) - 18) * 0.3 + dr.nPad) 60 130

/-- Lines 121-124: BMI with the female adjustment applied before the clip. -/
def imcBase (age : ℤ) (sexe : String) (dr : ClinicalDraws) : ℚ :=
  clip (22 + ((age : ℚ) - 18) * 0.08 + dr.nImc + (if sexe = "F" then 1.5 else 0)) 15 45

def tourTailleBase (age : ℤ) (sexe : String) (dr : ClinicalDraws) : ℚ :=
  75 + (imcBase age sexe dr - 22) * 2 + dr.nTour + (if sexe = "F" then 5 else 0)

def glyBase (age : ℤ) (dr : ClinicalDraws) : ℚ :=
  clip (85 + ((age : ℚ) - 18) * 0.3 + dr.nGly) 60 250

def cholBase (age : ℤ) (dr : ClinicalDraws) : ℚ :=
  170 + ((age : ℚ) - 18) * 0.4 + dr.nChol

def hdlBase (dr : ClinicalDraws) : ℚ := 50 + dr.nHdl

def triglyBase (age : ℤ) (sexe : String) (dr : ClinicalDraws) : ℚ :=
  120 + (imcBase age sexe dr - 22) * 4 + dr.nTrigly

def fcBase (dr : ClinicalDraws) : ℚ := 70 + dr.nFc

structure ClinicalFields where
  pression_arterielle_systolique : ℤ
  pression_arterielle_diastolique : ℤ
  hypertension : ℤ
  imc : ℚ
  obesite : ℤ
  tour_taille_cm : ℤ
  glycemie_jeun_mg_dl : ℤ
  diabete : ℤ
  cholesterol_total_mg_dl : ℤ
  cholesterol_eleve : ℤ
  hdl_mg_dl : ℤ
  ldl_mg_dl : ℤ
  triglycerides_mg_dl : ℤ
  frequence_cardiaque_repos : ℤ
deriving DecidableEq

def generateClinicalRow (age : ℤ) (sexe : String) (dr : ClinicalDraws) : ClinicalFields :=
  let cholStored := npRound (clip (cholBase age dr) 120 320)
  let hdlStored := npRound (clip (hdlBase dr) 25 80)
  { pression_arterielle_systolique := npRound (pasBase age dr)
    pression_arterielle_diastolique := npRound (padBase age dr)
    hypertension := if pasBase age dr ≥ 140 ∨ padBase age dr ≥ 90 then 1 else 0
    imc := npRound1 (imcBase age sexe dr)
    obesite := if imcBase age sexe dr ≥ 30 then 1 else 0
    tour_taille_cm := npRound (clip (tourTailleBase age sexe dr) 60 140)
    glycemie_jeun_mg_dl := npRound (glyBase age dr)
    diabete := if glyBase age dr ≥ 126 then 1 else 0
    cholesterol_total_mg_dl := cholStored
    cholesterol_eleve := if cholBase age dr ≥ 200 then 1 else 0
    hdl_mg_dl := hdlStored
    ldl_mg_dl := clipZ (cholStored - hdlStored - 30) 50 200
    triglycerides_mg_dl := npRound (clip (triglyBase age sexe dr) 50 400)
    frequence_cardiaque_repos := npRound (clip (fcBase dr) 50 110) }

/-! ### Stage 3 — lifestyle (lines 168-222)

`np.random.binomial(1, p)` draws are modeled as `bern p u` with `u` the
underlying uniform draw of that call. -/

/-- A Bernoulli(p) draw realized from a uniform variate `u`. -/
def bern (p u : ℚ) : ℤ := if u < p then 1 else 0

structure LifestyleDraws where
  uTabac : ℚ
  dCig : ℤ
  uAlcool : ℚ
  uActivite : ℚ
  dMinActif : ℤ
  dMinInactif : ℤ
  uSedentaire : ℚ
  uSel : ℚ
  gPortions : ℚ
  uSucre : ℚ
  dSucreHaut : ℤ
  dSucreBas : ℤ
deriving DecidableEq

structure LifestyleFields where
  tabagisme : ℤ
  cigarettes_par_jour : ℤ
  consommation_alcool : ℤ
  activite_physique_suffisante : ℤ
  minutes_activite_semaine : ℤ
  heures_sedentaire_jour : ℚ
  sel_bouillon_excessif : ℤ
  portions_fruits_legumes_jour : ℚ
  morceaux_sucre_matin : ℤ
deriving DecidableEq

def generateLifestyleRow (sexe milieu : String) (dr : LifestyleDraws) : LifestyleFields :=
  let tabac := bern (if sexe = "M" then 0.15 else 0.01) dr.uTabac
  let activite := bern 0.139 dr.uActivite
  { tabagisme := tabac
    cigarettes_par_jour := if tabac = 1 then dr.dCig else 0
    consommation_alcool := bern 0.034 dr.uAlcool
    activite_physique_suffisante := activite
    minutes_activite_semaine := if activite = 1 then dr.dMinActif else dr.dMinInactif
    heures_sedentaire_jour :=
      npRound1 (clip (dr.uSedentaire + (if milieu = "Urbain" then 2 else 0)) 1 16)
    sel_bouillon_excessif := bern 0.758 dr.uSel
    portions_fruits_legumes_jour := npRound1 dr.gPortions
    morceaux_sucre_matin := if dr.uSucre < 0.291 then dr.dSucreHaut else dr.dSucreBas }

/-! ### Stage 4 — medical history (lines 224-310, the algorithmic core) -/

/-- Lines 231-240: the composite risk score, in source operand order. -/
def riskScoreOf (hyp dia chol tabac obes act age : ℤ) : ℚ :=
  ((hyp : ℚ) * 2 + (dia : ℚ) * 2 + (chol : ℚ) * 1.5 + (tabac : ℚ) * 1.5 +
    (obes : ℚ) * 1 + (1 - (act : ℚ)) * 1 + (if age > 55 then (1 : ℚ) else 0) * 2) / 10

/-- Lines 299-304: `pd.cut` with bins `[-0.1, 2, 4, 6, 10]` (intervals open on
the left, closed on the right; out-of-bins values become `none`/NaN). -/
def categorieRisque (s : ℚ) : Option String :=
  if -0.1 < s ∧ s ≤ 2 then some "Faible"
  else if 2 < s ∧ s ≤ 4 then some "Modéré"
  else if 4 < s ∧ s ≤ 6 then some "Élevé"
  else if 6 < s ∧ s ≤ 10 then some "Très élevé"
  else none

structure MedicalDraws where
  uAvc : ℚ
  uInfarctus : ℚ
  uIc : ℚ
  uMrc : ℚ
  uFamiliaux : ℚ
  uDouleur : ℚ
  typeDouleur : String
  uDyspnee : ℚ
  uTraitHta : ℚ
  uTraitDia : ℚ
  uTraitChol : ℚ
  uEvenement : ℚ
deriving DecidableEq

structure MedicalFields where
  antecedent_avc : ℤ
  antecedent_infarctus : ℤ
  insuffisance_cardiaque : ℤ
  maladie_renale_chronique : ℤ
  antecedents_familiaux_cardio : ℤ
  douleur_thoracique : ℤ
  type_douleur_thoracique : String
  dyspnee : ℤ
  traitement_antihypertenseur : ℤ
  traitement_diabete : ℤ
  traitement_cholesterol : ℤ
  score_risque_cardiovasculaire : ℚ
  categorie_risque : Option String
  evenement_cardiovasculaire : ℤ
deriving DecidableEq

def generateMedicalRow (age hyp dia chol obes tabac act : ℤ) (dr : MedicalDraws) :
    MedicalFields :=
  let risk := riskScoreOf hyp dia chol tabac obes act age
  let douleur := bern (clip (risk * 0.15) 0 0.4) dr.uDouleur
  { antecedent_avc := bern (clip (risk * 0.05) 0 0.25) dr.uAvc
    antecedent_infarctus := bern (clip (risk * 0.03) 0 0.15) dr.uInfarctus
    insuffisance_cardiaque :=
      bern (clip ((risk * 0.04) * (if age > 50 then 1 else 0)) 0 0.20) dr.uIc
    maladie_renale_chronique := bern (clip (0.043 * (1 + risk * 0.5)) 0 0.15) dr.uMrc
    antecedents_familiaux_cardio := bern 0.25 dr.uFamiliaux
    douleur_thoracique := douleur
    type_douleur_thoracique := if douleur = 1 then dr.typeDouleur else "Aucune"
    dyspnee := bern (clip (risk * 0.20) 0 0.5) dr.uDyspnee
    traitement_antihypertenseur := if hyp = 1 then bern 0.65 dr.uTraitHta else 0
    traitement_diabete := if dia = 1 then bern 0.70 dr.uTraitDia else 0
    traitement_cholesterol := if chol = 1 then bern 0.45 dr.uTraitChol else 0
    score_risque_cardiovasculaire := npRound1 (clip (risk * 10) 0 10)
    categorie_risque := categorieRisque (npRound1 (clip (risk * 10) 0 10))
    evenement_cardiovasculaire := bern (clip (risk * 0.25) 0 0.6) dr.uEvenement }

/-! ### Full pipeline (lines 339-358) -/

structure RowDraws where
  demo : DemoDraws
  clin : ClinicalDraws
  life : LifestyleDraws
  med : MedicalDraws
deriving DecidableEq

structure PatientRow where
  demo : DemoRow
  clin : ClinicalFields
  life : LifestyleFields
  med : MedicalFields
deriving DecidableEq

/-- Embedding of `generate_complete_dataset` restricted to one row: stages 2-4 read their
covariates from the accumulated earlier-stage fields. -/
def generateRow (i : ℕ) (dr : RowDraws) : PatientRow :=
  let d := generateDemoRow i dr.demo
  let c := generateClinicalRow d.age d.sexe dr.clin
  let l := generateLifestyleRow d.sexe d.milieu dr.life
  let m := generateMedicalRow d.age c.hypertension c.diabete c.cholesterol_eleve
    c.obesite l.tabagisme l.activite_physique_suffisante dr.med
  ⟨d, c, l, m⟩

/-- The full table: row `k` (0-based) is patient `k+1`, fed from the random
stream's draws for that row. -/
def generateTable (n : ℕ) (stream : ℕ → RowDraws) : List PatientRow :=
  (List.range n).map (fun k => generateRow (k + 1) (stream k))

/-! ### Column-dictionary view of the pipeline (claim about stage framing)

At the table level every stage does `data = prev.copy()` followed by
assignments `data[k] = v` for a fixed list of fresh keys, in source order.
We model the column dictionary as an association list with Python-dict
assignment semantics (overwrite in place if the key exists, else append),
a `Value` per column kind, and each stage as the fold of its assignments
over the copied input. -/

inductive ColValue where
  | int : ℤ → ColValue
  | rat : ℚ → ColValue
  | str : String → ColValue
  | opt : Option String → ColValue
deriving DecidableEq

/-- The column dictionary. -/
def ColDict := List (String × ColValue)

/-- Python `d[k] = v`: overwrite in place if present, else append. -/
def dictAssign : ColDict → String → ColValue → ColDict
  | [], k, v => [(k, v)]
  | (k', v') :: rest, k, v =>
    if k' = k then (k, v) :: rest else (k', v') :: dictAssign rest k v

def dictLookup (k : String) : ColDict → Option ColValue
  | [] => none
  | (k', v) :: rest => if k' = k then some v else dictLookup k rest

def dictKeys (d : ColDict) : List String := d.map Prod.fst

/-- A stage body: the sequence of `data[k] = v` assignments after the copy. -/
def addFields (d : ColDict) (kvs : List (String × ColValue)) : ColDict :=
  kvs.foldl (fun acc kv => dictAssign acc kv.1 kv.2) d

/-- Keys assigned by `generate_demographics` (lines 56-93), in source order. -/
def demoKeys : List String :=
  ["patient_id", "sexe", "age", "region", "milieu", "profession", "niveau_education"]

/-- Keys assigned by `generate_clinical_data` (lines 114-164). -/
def clinicalKeys : List String :=
  ["pression_arterielle_systolique", "pression_arterielle_diastolique", "hypertension",
   "imc", "obesite", "tour_taille_cm", "glycemie_jeun_mg_dl", "diabete",
   "cholesterol_total_mg_dl", "cholesterol_eleve", "hdl_mg_dl", "ldl_mg_dl",
   "triglycerides_mg_dl", "frequence_cardiaque_repos"]

/-- Keys assigned by `generate_lifestyle_data` (lines 177-220). -/
def lifestyleKeys : List String :=
  ["tabagisme", "cigarettes_par_jour", "consommation_alcool",
   "activite_physique_suffisante", "minutes_activite_semaine", "heures_sedentaire_jour",
   "sel_bouillon_excessif", "portions_fruits_legumes_jour", "morceaux_sucre_matin"]

/-- Keys assigned by `generate_medical_history` (lines 244-308). -/
def medicalKeys : List String :=
  ["antecedent_avc", "antecedent_infarctus", "insuffisance_cardiaque",
   "maladie_renale_chronique", "antecedents_familiaux_cardio", "douleur_thoracique",
   "type_douleur_thoracique", "dyspnee", "traitement_antihypertenseur",
   "traitement_diabete", "traitement_cholesterol", "score_risque_cardiovasculaire",
   "categorie_risque", "evenement_cardiovasculaire"]

/-- Keys assigned by `generate_temporal_data` (lines 326-334). -/
def temporalKeys : List String :=
  ["date_consultation", "annee_consultation", "mois_consultation", "saison"]

/-- The accumulated key set after each of the five stages. -/
def pipelineKeys : ℕ → List String
  | 0 => []
  | 1 => demoKeys
  | 2 => demoKeys ++ clinicalKeys
  | 3 => demoKeys ++ clinicalKeys ++ lifestyleKeys
  | 4 => demoKeys ++ clinicalKeys ++ lifestyleKeys ++ medicalKeys
  | _ => demoKeys ++ clinicalKeys ++ lifestyleKeys ++ medicalKeys ++ temporalKeys

/-- The new keys a given stage assigns. -/
def stageNewKeys : ℕ → List String
  | 2 => clinicalKeys
  | 3 => lifestyleKeys
  | 4 => medicalKeys
  | 5 => temporalKeys
  | _ => []

theorem dictLookup_assign_ne (d : ColDict) (k k' : String) (v : ColValue) (h : k' ≠ k) :
    dictLookup k (dictAssign d k' v) = dictLookup k d := by
  induction d with
  | nil => simp [dictAssign, dictLookup, h]
  | cons kv rest ih =>
    obtain ⟨k0, v0⟩ := kv
    by_cases h0 : k0 = k'
    · have hstep : dictAssign ((k0, v0) :: rest) k' v = (k', v) :: rest := by
        simp [dictAssign, h0]
      rw [hstep]
      subst h0
      simp [dictLookup, h]
    · have hstep : dictAssign ((k0, v0) :: rest) k' v = (k0, v0) :: dictAssign rest k' v := by
        simp [dictAssign, h0]
      rw [hstep]
      by_cases h1 : k0 = k
      · simp [dictLookup, h1]
      · simp [dictLookup, h1, ih]

theorem dictKeys_assign_mem (d : ColDict) (k k' : String) (v : ColValue)
    (h : k ∈ dictKeys (dictAssign d k' v)) : k ∈ dictKeys d ∨ k = k' := by
  induction d with
  | nil =>
    simp [dictAssign, dictKeys] at h
    simp [h]
  | cons kv rest ih =>
    obtain ⟨k0, v0⟩ := kv
    by_cases h0 : k0 = k'
    · have hstep : dictAssign ((k0, v0) :: rest) k' v = (k', v) :: rest := by
        simp [dictAssign, h0]
      rw [hstep] at h
      simp only [dictKeys, List.map_cons, List.mem_cons] at h ⊢
      rcases h with h | h
      · exact Or.inr h
      · exact Or.inl (Or.inr h)
    · have hstep : dictAssign ((k0, v0) :: rest) k' v = (k0, v0) :: dictAssign rest k' v := by
        simp [dictAssign, h0]
      rw [hstep] at h
      simp only [dictKeys, List.map_cons, List.mem_cons] at h ⊢
      rcases h with h | h
      · exact Or.inl (Or.inl h)
      · rcases ih h with h' | h'
        · exact Or.inl (Or.inr h')
        · exact Or.inr h'

theorem dictKeys_mem_assign (d : ColDict) (k k' : String) (v : ColValue)
    (h : k ∈ dictKeys d) : k ∈ dictKeys (dictAssign d k' v) := by
  induction d with
  | nil => simp [dictKeys] at h
  | cons kv rest ih =>
    obtain ⟨k0, v0⟩ := kv
    simp only [dictKeys, List.map_cons, List.mem_cons] at h
    by_cases h0 : k0 = k'
    · have hstep : dictAssign ((k0, v0) :: rest) k' v = (k', v) :: rest := by
        simp [dictAssign, h0]
      rw [hstep]
      simp only [dictKeys, List.map_cons, List.mem_cons]
      rcases h with h | h
      · exact Or.inl (h.trans h0)
      · exact Or.inr h
    · have hstep : dictAssign ((k0, v0) :: rest) k' v = (k0, v0) :: dictAssign rest k' v := by
        simp [dictAssign, h0]
      rw [hstep]
      simp only [dictKeys, List.map_cons, List.mem_cons]
      rcases h with h | h
      · exact Or.inl h
      · exact Or.inr (ih h)

/-- A stage body leaves every key it does not assign untouched. -/
theorem dictLookup_addFields (d : ColDict) (kvs : List (String × ColValue)) (k : String)
    (h : k ∉ kvs.map Prod.fst) : dictLookup k (addFields d kvs) = dictLookup k d := by
  induction kvs generalizing d with
  | nil => rfl
  | cons kv rest ih =>
    simp only [List.map_cons, List.mem_cons] at h
    push_neg at h
    have hstep : addFields d (kv :: rest) = addFields (dictAssign d kv.1 kv.2) rest := rfl
    rw [hstep, ih (dictAssign d kv.1 kv.2) h.2,
        dictLookup_assign_ne d k kv.1 kv.2 (fun he => h.1 he.symm)]

/-- A stage body only adds its own keys. -/
theorem dictKeys_addFields (d : ColDict) (kvs : List (String × ColValue)) (k : String)
    (h : k ∈ dictKeys (addFields d kvs)) : k ∈ dictKeys d ∨ k ∈ kvs.map Prod.fst := by
  induction kvs generalizing d with
  | nil => exact Or.inl h
  | cons kv rest ih =>
    have hstep : addFields d (kv :: rest) = addFields (dictAssign d kv.1 kv.2) rest := rfl
    rw [hstep] at h
    rcases ih (dictAssign d kv.1 kv.2) h with h' | h'
    · rcases dictKeys_assign_mem d k kv.1 kv.2 h' with h'' | h''
      · exact Or.inl h''
      · simp [h'']
    · simp [h']

/-- A stage body keeps every existing key present. -/
theorem dictKeys_mem_addFields (d : ColDict) (kvs : List (String × ColValue)) (k : String)
    (h : k ∈ dictKeys d) : k ∈ dictKeys (addFields d kvs) := by
  induction kvs generalizing d with
  | nil => exact h
  | cons kv rest ih =>
    have hstep : addFields d (kv :: rest) = addFields (dictAssign d kv.1 kv.2) rest := rfl
    rw [hstep]
    exact ih (dictAssign d kv.1 kv.2) (dictKeys_mem_assign d k kv.1 kv.2 h)

/-! ### Shared concrete draw records (used by witnesses and counterexamples) -/

/-- Draws putting patient 1 in the youngest age band with no abnormal values. -/
def zeroDemoDraws : DemoDraws := ⟨0, 0, 18, 36, 56, "F", "Dakar", 0, "Commerce", "Aucun"⟩

def zeroClinDraws : ClinicalDraws := ⟨0, 0, 0, 0, 0, 0, 0, 0, 0⟩

def zeroLifeDraws : LifestyleDraws := ⟨1, 1, 1, 1, 150, 0, 2, 1, 0, 1, 3, 0⟩

def zeroMedDraws : MedicalDraws := ⟨1, 1, 1, 1, 1, 1, "Angine typique", 1, 1, 1, 1, 1⟩

def zeroRowDraws : RowDraws := ⟨zeroDemoDraws, zeroClinDraws, zeroLifeDraws, zeroMedDraws⟩

/-- Same draws with a different systolic Gaussian noise (for stream sensitivity). -/
def altRowDraws : RowDraws :=
  ⟨zeroDemoDraws, ⟨50, 0, 0, 0, 0, 0, 0, 0, 0⟩, zeroLifeDraws, zeroMedDraws⟩

/-! ### Generic helper lemmas -/

theorem indicator_eq_one_iff (P : Prop) [Decidable P] :
    ((if P then (1 : ℤ) else 0) = 1) ↔ P := by
  split <;> simp_all

theorem indicator_eq_zero_iff (P : Prop) [Decidable P] :
    ((if P then (1 : ℤ) else 0) = 0) ↔ ¬P := by
  split <;> simp_all

theorem gated_zero {cond draw : ℤ} (h : cond = 0) : (if cond = 1 then draw else 0) = 0 := by
  rw [h]
  norm_num

theorem gated_nonzero {cond draw : ℤ} (h : (if cond = 1 then draw else 0) ≠ 0) : cond = 1 := by
  by_contra hc
  rw [if_neg hc] at h
  exact h rfl

/-! ### Field-bound lemmas for the clamp claim -/

theorem sampleAge_bounds (dr : DemoDraws) (hY : 18 ≤ dr.dYoung ∧ dr.dYoung < 36)
    (hA : 36 ≤ dr.dAdult ∧ dr.dAdult < 56) (hS : 56 ≤ dr.dSenior ∧ dr.dSenior < 81) :
    18 ≤ sampleAge dr ∧ sampleAge dr ≤ 80 := by
  unfold sampleAge
  split_ifs <;> omega

theorem systolic_bounds (age : ℤ) (dr : ClinicalDraws) :
    90 ≤ npRound (pasBase age dr) ∧ npRound (pasBase age dr) ≤ 200 := by
  unfold pasBase
  have hb := npRound_clip_bounds (115 + ((age : ℚ) - 18) * 0.5 + dr.nPas)
    (a := 90) (b := 200) (by norm_num)
  push_cast at hb
  exact hb

theorem diastolic_bounds (age : ℤ) (dr : ClinicalDraws) :
    60 ≤ npRound (padBase age dr) ∧ npRound (padBase age dr) ≤ 130 := by
  unfold padBase
  have hb := npRound_clip_bounds (75 + ((age : ℚ) - 18) * 0.3 + dr.nPad)
    (a := 60) (b := 130) (by norm_num)
  push_cast at hb
  exact hb

theorem imc_bounds (age : ℤ) (sexe : String) (dr : ClinicalDraws) :
    (15 : ℚ) ≤ npRound1 (imcBase age sexe dr) ∧ npRound1 (imcBase age sexe dr) ≤ 45 := by
  unfold imcBase
  have hb := npRound1_clip_bounds
    (22 + ((age : ℚ) - 18) * 0.08 + dr.nImc + (if sexe = "F" then 1.5 else 0))
    (a := 15) (b := 45) (by norm_num)
  push_cast at hb
  exact hb

theorem tour_bounds (age : ℤ) (sexe : String) (dr : ClinicalDraws) :
    60 ≤ npRound (clip (tourTailleBase age sexe dr) 60 140)
    ∧ npRound (clip (tourTailleBase age sexe dr) 60 140) ≤ 140 := by
  have hb := npRound_clip_bounds (tourTailleBase age sexe dr) (a := 60) (b := 140) (by norm_num)
  push_cast at hb
  exact hb

theorem gly_bounds (age : ℤ) (dr : ClinicalDraws) :
    60 ≤ npRound (glyBase age dr) ∧ npRound (glyBase age dr) ≤ 250 := by
  unfold glyBase
  have hb := npRound_clip_bounds (85 + ((age : ℚ) - 18) * 0.3 + dr.nGly)
    (a := 60) (b := 250) (by norm_num)
  push_cast at hb
  exact hb

theorem chol_bounds (age : ℤ) (dr : ClinicalDraws) :
    120 ≤ npRound (clip (cholBase age dr) 120 320)
    ∧ npRound (clip (cholBase age dr) 120 320) ≤ 320 := by
  have hb := npRound_clip_bounds (cholBase age dr) (a := 120) (b := 320) (by norm_num)
  push_cast at hb
  exact hb

theorem hdl_bounds (dr : ClinicalDraws) :
    25 ≤ npRound (clip (hdlBase dr) 25 80) ∧ npRound (clip (hdlBase dr) 25 80) ≤ 80 := by
  have hb := npRound_clip_bounds (hdlBase dr) (a := 25) (b := 80) (by norm_num)
  push_cast at hb
  exact hb

theorem trigly_bounds (age : ℤ) (sexe : String) (dr : ClinicalDraws) :
    50 ≤ npRound (clip (triglyBase age sexe dr) 50 400)
    ∧ npRound (clip (triglyBase age sexe dr) 50 400) ≤ 400 := by
  have hb := npRound_clip_bounds (triglyBase age sexe dr) (a := 50) (b := 400) (by norm_num)
  push_cast at hb
  exact hb

theorem fc_bounds (dr : ClinicalDraws) :
    50 ≤ npRound (clip (fcBase dr) 50 110) ∧ npRound (clip (fcBase dr) 50 110) ≤ 110 := by
  have hb := npRound_clip_bounds (fcBase dr) (a := 50) (b := 110) (by norm_num)
  push_cast at hb
  exact hb

theorem sedentaire_bounds (x : ℚ) :
    (1 : ℚ) ≤ npRound1 (clip x 1 16) ∧ npRound1 (clip x 1 16) ≤ 16 := by
  have hb := npRound1_clip_bounds x (a := 1) (b := 16) (by norm_num)
  push_cast at hb
  exact hb

theorem score_bounds (x : ℚ) :
    (0 : ℚ) ≤ npRound1 (clip x 0 10) ∧ npRound1 (clip x 0 10) ≤ 10 := by
  have hb := npRound1_clip_bounds x (a := 0) (b := 10) (by norm_num)
  push_cast at hb
  exact hb

theorem ldl_bounds (t h : ℤ) : 50 ≤ clipZ (t - h - 30) 50 200 ∧ clipZ (t - h - 30) 50 200 ≤ 200 :=
  clipZ_bounds (by norm_num)

/-- The bucket rule of `pd.cut` restated on the reachable score range. -/
theorem categorieRisque_spec {s : ℚ} (h0 : 0 ≤ s) (h10 : s ≤ 10) :
    (s ≤ 2 → categorieRisque s = some "Faible")
    ∧ (2 < s ∧ s ≤ 4 → categorieRisque s = some "Modéré")
    ∧ (4 < s ∧ s ≤ 6 → categorieRisque s = some "Élevé")
    ∧ (6 < s → categorieRisque s = some "Très élevé") := by
  unfold categorieRisque
  refine ⟨fun h => ?_, fun h => ?_, fun h => ?_, fun h => ?_⟩
  · rw [if_pos ⟨by linarith, h⟩]
  · rw [if_neg (fun hc => absurd hc.2 (not_le.mpr h.1)), if_pos h]
  · rw [if_neg (fun hc => absurd hc.2 (not_le.mpr (by linarith [h.1]))),
        if_neg (fun hc => absurd hc.2 (not_le.mpr h.1)), if_pos h]
  · rw [if_neg (fun hc => absurd hc.2 (not_le.mpr (by linarith))),
        if_neg (fun hc => absurd hc.2 (not_le.mpr (by linarith))),
        if_neg (fun hc => absurd hc.2 (not_le.mpr h)), if_pos ⟨h, h10⟩]

/-- The spec's risk formula, as written in the spec sentence, for comparison
with the source's `riskScoreOf`. -/
def specRiskScore (hyp dia chol smoking obes act age : ℤ) : ℚ :=
  (2 * (hyp : ℚ) + 2 * (dia : ℚ) + 1.5 * (chol : ℚ) + 1.5 * (smoking : ℚ)
    + 1 * (obes : ℚ) + 1 * (1 - (act : ℚ)) + 2 * (if age > 55 then (1 : ℚ) else 0)) / 10

theorem riskScoreOf_eq_spec (hyp dia chol smoking obes act age : ℤ) :
    riskScoreOf hyp dia chol smoking obes act age
      = specRiskScore hyp dia chol smoking obes act age := by
  unfold riskScoreOf specRiskScore
  ring

/-! ### Claim theorems -/

/-- C1 (amended): every derived condition flag is the threshold predicate
applied to the clamped continuous source value before rounding (for total
cholesterol the unclamped continuous value, which agrees with the clamped one
at the 200 mg/dL threshold): hypertension = 1 iff continuous systolic ≥ 140 or
continuous diastolic ≥ 90, obesity = 1 iff continuous BMI ≥ 30, diabetes = 1
iff continuous fasting glucose ≥ 126, high cholesterol = 1 iff continuous total
cholesterol ≥ 200, with zero exceptions; the flags are not functions of the
rounded stored values. -/
theorem c1_condition_flags_from_continuous (age : ℤ) (sexe : String) (dr : ClinicalDraws) :
    ((generateClinicalRow age sexe dr).hypertension = 1
      ↔ (pasBase age dr ≥ 140 ∨ padBase age dr ≥ 90))
    ∧ ((generateClinicalRow age sexe dr).hypertension = 0
      ↔ ¬(pasBase age dr ≥ 140 ∨ padBase age dr ≥ 90))
    ∧ ((generateClinicalRow age sexe dr).obesite = 1 ↔ imcBase age sexe dr ≥ 30)
    ∧ ((generateClinicalRow age sexe dr).obesite = 0 ↔ ¬imcBase age sexe dr ≥ 30)
    ∧ ((generateClinicalRow age sexe dr).diabete = 1 ↔ glyBase age dr ≥ 126)
    ∧ ((generateClinicalRow age sexe dr).diabete = 0 ↔ ¬glyBase age dr ≥ 126)
    ∧ ((generateClinicalRow age sexe dr).cholesterol_eleve = 1 ↔ cholBase age dr ≥ 200)
    ∧ ((generateClinicalRow age sexe dr).cholesterol_eleve = 0 ↔ ¬cholBase age dr ≥ 200) :=
  ⟨indicator_eq_one_iff _, indicator_eq_zero_iff _, indicator_eq_one_iff _,
   indicator_eq_zero_iff _, indicator_eq_one_iff _, indicator_eq_zero_iff _,
   indicator_eq_one_iff _, indicator_eq_zero_iff _⟩

/-- C1 counterexample: at age 18 with glucose noise 40.5 the continuous
fasting glucose is 125.5, so the stored (rounded) value is 126 while the
diabetes flag is 0 — the flag does not equal the threshold predicate applied
to the stored value. -/
theorem c1_stored_flag_mismatch :
    (generateClinicalRow 18 "M" ⟨0, 0, 0, 0, 40.5, 0, 0, 0, 0⟩).glycemie_jeun_mg_dl = 126
    ∧ (generateClinicalRow 18 "M" ⟨0, 0, 0, 0, 40.5, 0, 0, 0, 0⟩).diabete = 0
    ∧ ¬ ((generateClinicalRow 18 "M" ⟨0, 0, 0, 0, 40.5, 0, 0, 0, 0⟩).diabete = 1
        ↔ (generateClinicalRow 18 "M" ⟨0, 0, 0, 0, 40.5, 0, 0, 0, 0⟩).glycemie_jeun_mg_dl
            ≥ 126) := by
  with_unfolding_all decide

/-- C2: for every generated row the composite risk score computed by the
medical-history stage equals the spec's formula
(2·hyp + 2·dia + 1.5·chol + 1.5·smoking + 1·obesity + 1·(1−activity) + 2·(age>55))/10
over that row's stage-2/stage-3 flags and age, and the displayed score column
equals round(clip(risk·10, 0, 10), 1). -/
theorem c2_risk_score_formula (i : ℕ) (dr : RowDraws) :
    riskScoreOf (generateRow i dr).clin.hypertension (generateRow i dr).clin.diabete
        (generateRow i dr).clin.cholesterol_eleve (generateRow i dr).life.tabagisme
        (generateRow i dr).clin.obesite (generateRow i dr).life.activite_physique_suffisante
        (generateRow i dr).demo.age
      = specRiskScore (generateRow i dr).clin.hypertension (generateRow i dr).clin.diabete
          (generateRow i dr).clin.cholesterol_eleve (generateRow i dr).life.tabagisme
          (generateRow i dr).clin.obesite (generateRow i dr).life.activite_physique_suffisante
          (generateRow i dr).demo.age
    ∧ (generateRow i dr).med.score_risque_cardiovasculaire
      = npRound1 (clip (riskScoreOf (generateRow i dr).clin.hypertension
          (generateRow i dr).clin.diabete (generateRow i dr).clin.cholesterol_eleve
          (generateRow i dr).life.tabagisme (generateRow i dr).clin.obesite
          (generateRow i dr).life.activite_physique_suffisante
          (generateRow i dr).demo.age * 10) 0 10) :=
  ⟨riskScoreOf_eq_spec _ _ _ _ _ _ _, rfl⟩

/-- C3 counterexample: with N = 0 construction succeeds (no configuration
error is raised) and stage 1 produces the empty identifier list — the
generator does not fail fast on N ≤ 0. -/
theorem c3_no_fail_fast : cardioInit 0 = Except.ok 0 ∧ patientIds 0 = [] := ⟨rfl, rfl⟩

/-- C3 (amended): the generator performs no validation of the population
size: construction succeeds for every N, and for N ≤ 0 stage 1 silently
produces zero rows (an empty identifier list) instead of raising a
configuration error. -/
theorem c3_no_validation (n : ℤ) :
    cardioInit n = Except.ok n ∧ (n ≤ 0 → patientIds n = []) := by
  refine ⟨rfl, fun h => ?_⟩
  simp [patientIds, Int.toNat_of_nonpos h]

theorem c3_no_validation_witness :
    (-5 : ℤ) ≤ 0 ∧ (cardioInit (-5) = Except.ok (-5) ∧ patientIds (-5) = []) :=
  ⟨by decide, (c3_no_validation (-5)).1, (c3_no_validation (-5)).2 (by decide)⟩

/-- C4: each treatment flag is 0 whenever the corresponding condition flag
is 0, and can be nonzero only when the condition flag is 1. -/
theorem c4_treatment_gating (i : ℕ) (dr : RowDraws) :
    ((generateRow i dr).clin.hypertension = 0
      → (generateRow i dr).med.traitement_antihypertenseur = 0)
    ∧ ((generateRow i dr).med.traitement_antihypertenseur ≠ 0
      → (generateRow i dr).clin.hypertension = 1)
    ∧ ((generateRow i dr).clin.diabete = 0 → (generateRow i dr).med.traitement_diabete = 0)
    ∧ ((generateRow i dr).med.traitement_diabete ≠ 0 → (generateRow i dr).clin.diabete = 1)
    ∧ ((generateRow i dr).clin.cholesterol_eleve = 0
      → (generateRow i dr).med.traitement_cholesterol = 0)
    ∧ ((generateRow i dr).med.traitement_cholesterol ≠ 0
      → (generateRow i dr).clin.cholesterol_eleve = 1) :=
  ⟨fun h => gated_zero h, fun h => gated_nonzero h, fun h => gated_zero h,
   fun h => gated_nonzero h, fun h => gated_zero h, fun h => gated_nonzero h⟩

theorem c4_treatment_gating_witness :
    (generateRow 1 zeroRowDraws).clin.hypertension = 0
    ∧ (generateRow 1 zeroRowDraws).med.traitement_antihypertenseur = 0 :=
  ⟨by with_unfolding_all decide,
   (c4_treatment_gating 1 zeroRowDraws).1 (by with_unfolding_all decide)⟩

/-- C5: for every generated row the categorical risk bucket is determined
by the displayed risk score via the boundary rule: score ≤ 2 → Faible,
(2,4] → Modéré, (4,6] → Élevé, > 6 → Très élevé. -/
theorem c5_risk_bucket (i : ℕ) (dr : RowDraws) :
    ((generateRow i dr).med.score_risque_cardiovasculaire ≤ 2
      → (generateRow i dr).med.categorie_risque = some "Faible")
    ∧ (2 < (generateRow i dr).med.score_risque_cardiovasculaire
        ∧ (generateRow i dr).med.score_risque_cardiovasculaire ≤ 4
      → (generateRow i dr).med.categorie_risque = some "Modéré")
    ∧ (4 < (generateRow i dr).med.score_risque_cardiovasculaire
        ∧ (generateRow i dr).med.score_risque_cardiovasculaire ≤ 6
      → (generateRow i dr).med.categorie_risque = some "Élevé")
    ∧ (6 < (generateRow i dr).med.score_risque_cardiovasculaire
      → (generateRow i dr).med.categorie_risque = some "Très élevé") := by
  have hb : (0 : ℚ) ≤ (generateRow i dr).med.score_risque_cardiovasculaire
      ∧ (generateRow i dr).med.score_risque_cardiovasculaire ≤ 10 :=
    score_bounds (riskScoreOf (generateRow i dr).clin.hypertension
      (generateRow i dr).clin.diabete (generateRow i dr).clin.cholesterol_eleve
      (generateRow i dr).life.tabagisme (generateRow i dr).clin.obesite
      (generateRow i dr).life.activite_physique_suffisante
      (generateRow i dr).demo.age * 10)
  have hcat : (generateRow i dr).med.categorie_risque
      = categorieRisque ((generateRow i dr).med.score_risque_cardiovasculaire) := rfl
  rw [hcat]
  exact categorieRisque_spec hb.1 hb.2

set_option maxRecDepth 10000 in
theorem c5_risk_bucket_witness :
    (generateRow 1 zeroRowDraws).med.score_risque_cardiovasculaire ≤ 2
    ∧ (generateRow 1 zeroRowDraws).med.categorie_risque = some "Faible" :=
  ⟨by with_unfolding_all decide,
   (c5_risk_bucket 1 zeroRowDraws).1 (by with_unfolding_all decide)⟩

/-- C6: for every generated row, the stored LDL equals the stored total
cholesterol minus the stored HDL minus 30, clamped to [50, 200]. -/
theorem c6_ldl_formula (i : ℕ) (dr : RowDraws) :
    (generateRow i dr).clin.ldl_mg_dl
      = min 200 (max 50 ((generateRow i dr).clin.cholesterol_total_mg_dl
          - (generateRow i dr).clin.hdl_mg_dl - 30)) := rfl

/-- C7: assuming the three `np.random.randint` age-band draws lie in their
supports, every clamp-bounded field of a generated row lies within its declared
range: age [18,80], systolic [90,200], diastolic [60,130], BMI [15,45], waist
[60,140], glucose [60,250], total cholesterol [120,320], HDL [25,80],
LDL [50,200], triglycerides [50,400], resting heart rate [50,110], sedentary
hours [1,16], displayed risk score [0,10]. -/
theorem c7_clamp_ranges (i : ℕ) (dr : RowDraws)
    (hY : 18 ≤ dr.demo.dYoung ∧ dr.demo.dYoung < 36)
    (hA : 36 ≤ dr.demo.dAdult ∧ dr.demo.dAdult < 56)
    (hS : 56 ≤ dr.demo.dSenior ∧ dr.demo.dSenior < 81) :
    (18 ≤ (generateRow i dr).demo.age ∧ (generateRow i dr).demo.age ≤ 80)
    ∧ (90 ≤ (generateRow i dr).clin.pression_arterielle_systolique
        ∧ (generateRow i dr).clin.pression_arterielle_systolique ≤ 200)
    ∧ (60 ≤ (generateRow i dr).clin.pression_arterielle_diastolique
        ∧ (generateRow i dr).clin.pression_arterielle_diastolique ≤ 130)
    ∧ ((15 : ℚ) ≤ (generateRow i dr).clin.imc ∧ (generateRow i dr).clin.imc ≤ 45)
    ∧ (60 ≤ (generateRow i dr).clin.tour_taille_cm
        ∧ (generateRow i dr).clin.tour_taille_cm ≤ 140)
    ∧ (60 ≤ (generateRow i dr).clin.glycemie_jeun_mg_dl
        ∧ (generateRow i dr).clin.glycemie_jeun_mg_dl ≤ 250)
    ∧ (120 ≤ (generateRow i dr).clin.cholesterol_total_mg_dl
        ∧ (generateRow i dr).clin.cholesterol_total_mg_dl ≤ 320)
    ∧ (25 ≤ (generateRow i dr).clin.hdl_mg_dl ∧ (generateRow i dr).clin.hdl_mg_dl ≤ 80)
    ∧ (50 ≤ (generateRow i dr).clin.ldl_mg_dl ∧ (generateRow i dr).clin.ldl_mg_dl ≤ 200)
    ∧ (50 ≤ (generateRow i dr).clin.triglycerides_mg_dl
        ∧ (generateRow i dr).clin.triglycerides_mg_dl ≤ 400)
    ∧ (50 ≤ (generateRow i dr).clin.frequence_cardiaque_repos
        ∧ (generateRow i dr).clin.frequence_cardiaque_repos ≤ 110)
    ∧ ((1 : ℚ) ≤ (generateRow i dr).life.heures_sedentaire_jour
        ∧ (generateRow i dr).life.heures_sedentaire_jour ≤ 16)
    ∧ ((0 : ℚ) ≤ (generateRow i dr).med.score_risque_cardiovasculaire
        ∧ (generateRow i dr).med.score_risque_cardiovasculaire ≤ 10) :=
  ⟨sampleAge_bounds dr.demo hY hA hS,
   systolic_bounds (sampleAge dr.demo) dr.clin,
   diastolic_bounds (sampleAge dr.demo) dr.clin,
   imc_bounds (sampleAge dr.demo) dr.demo.sexe dr.clin,
   tour_bounds (sampleAge dr.demo) dr.demo.sexe dr.clin,
   gly_bounds (sampleAge dr.demo) dr.clin,
   chol_bounds (sampleAge dr.demo) dr.clin,
   hdl_bounds dr.clin,
   ldl_bounds _ _,
   trigly_bounds (sampleAge dr.demo) dr.demo.sexe dr.clin,
   fc_bounds dr.clin,
   sedentaire_bounds _,
   score_bounds _⟩

set_option maxRecDepth 10000 in
theorem c7_clamp_ranges_witness :
    ((18 ≤ zeroRowDraws.demo.dYoung ∧ zeroRowDraws.demo.dYoung < 36)
      ∧ (36 ≤ zeroRowDraws.demo.dAdult ∧ zeroRowDraws.demo.dAdult < 56)
      ∧ (56 ≤ zeroRowDraws.demo.dSenior ∧ zeroRowDraws.demo.dSenior < 81))
    ∧ ((18 ≤ (generateRow 1 zeroRowDraws).demo.age
        ∧ (generateRow 1 zeroRowDraws).demo.age ≤ 80)
      ∧ (90 ≤ (generateRow 1 zeroRowDraws).clin.pression_arterielle_systolique
          ∧ (generateRow 1 zeroRowDraws).clin.pression_arterielle_systolique ≤ 200)
      ∧ (60 ≤ (generateRow 1 zeroRowDraws).clin.pression_arterielle_diastolique
          ∧ (generateRow 1 zeroRowDraws).clin.pression_arterielle_diastolique ≤ 130)
      ∧ ((15 : ℚ) ≤ (generateRow 1 zeroRowDraws).clin.imc
          ∧ (generateRow 1 zeroRowDraws).clin.imc ≤ 45)
      ∧ (60 ≤ (generateRow 1 zeroRowDraws).clin.tour_taille_cm
          ∧ (generateRow 1 zeroRowDraws).clin.tour_taille_cm ≤ 140)
      ∧ (60 ≤ (generateRow 1 zeroRowDraws).clin.glycemie_jeun_mg_dl
          ∧ (generateRow 1 zeroRowDraws).clin.glycemie_jeun_mg_dl ≤ 250)
      ∧ (120 ≤ (generateRow 1 zeroRowDraws).clin.cholesterol_total_mg_dl
          ∧ (generateRow 1 zeroRowDraws).clin.cholesterol_total_mg_dl ≤ 320)
      ∧ (25 ≤ (generateRow 1 zeroRowDraws).clin.hdl_mg_dl
          ∧ (generateRow 1 zeroRowDraws).clin.hdl_mg_dl ≤ 80)
      ∧ (50 ≤ (generateRow 1 zeroRowDraws).clin.ldl_mg_dl
          ∧ (generateRow 1 zeroRowDraws).clin.ldl_mg_dl ≤ 200)
      ∧ (50 ≤ (generateRow 1 zeroRowDraws).clin.triglycerides_mg_dl
          ∧ (generateRow 1 zeroRowDraws).clin.triglycerides_mg_dl ≤ 400)
      ∧ (50 ≤ (generateRow 1 zeroRowDraws).clin.frequence_cardiaque_repos
          ∧ (generateRow 1 zeroRowDraws).clin.frequence_cardiaque_repos ≤ 110)
      ∧ ((1 : ℚ) ≤ (generateRow 1 zeroRowDraws).life.heures_sedentaire_jour
          ∧ (generateRow 1 zeroRowDraws).life.heures_sedentaire_jour ≤ 16)
      ∧ ((0 : ℚ) ≤ (generateRow 1 zeroRowDraws).med.score_risque_cardiovasculaire
          ∧ (generateRow 1 zeroRowDraws).med.score_risque_cardiovasculaire ≤ 10)) :=
  ⟨by with_unfolding_all decide,
   c7_clamp_ranges 1 zeroRowDraws (by with_unfolding_all decide)
     (by with_unfolding_all decide) (by with_unfolding_all decide)⟩

/-- C8: no stage removes or modifies a field produced by an earlier stage:
a stage body (`data = prev.copy()` plus its `data[k] = v` assignments) leaves
every key it does not assign present with an unchanged value and only adds
keys it assigns; and each stage's assigned key list is disjoint from all keys
accumulated by the earlier stages. -/
theorem c8_stage_framing :
    (∀ (d : ColDict) (kvs : List (String × ColValue)) (k : String),
        k ∈ dictKeys d → k ∉ kvs.map Prod.fst →
        dictLookup k (addFields d kvs) = dictLookup k d ∧ k ∈ dictKeys (addFields d kvs))
    ∧ (∀ (d : ColDict) (kvs : List (String × ColValue)) (k : String),
        k ∈ dictKeys (addFields d kvs) → k ∈ dictKeys d ∨ k ∈ kvs.map Prod.fst)
    ∧ ((∀ k ∈ pipelineKeys 1, k ∉ stageNewKeys 2)
       ∧ (∀ k ∈ pipelineKeys 2, k ∉ stageNewKeys 3)
       ∧ (∀ k ∈ pipelineKeys 3, k ∉ stageNewKeys 4)
       ∧ (∀ k ∈ pipelineKeys 4, k ∉ stageNewKeys 5)) := by
  refine ⟨fun d kvs k hk hnk =>
      ⟨dictLookup_addFields d kvs k hnk, dictKeys_mem_addFields d kvs k hk⟩,
    fun d kvs k hk => dictKeys_addFields d kvs k hk, ?_, ?_, ?_, ?_⟩ <;>
    with_unfolding_all decide

theorem c8_stage_framing_witness :
    ("age" ∈ dictKeys [("age", ColValue.int 30)]
      ∧ "age" ∉ ([("imc", ColValue.rat 23)] : List (String × ColValue)).map Prod.fst)
    ∧ dictLookup "age" (addFields [("age", ColValue.int 30)] [("imc", ColValue.rat 23)])
        = dictLookup "age" [("age", ColValue.int 30)]
    ∧ "age" ∈ dictKeys (addFields [("age", ColValue.int 30)] [("imc", ColValue.rat 23)]) :=
  ⟨⟨by decide, by decide⟩,
   (c8_stage_framing.1 [("age", ColValue.int 30)] [("imc", ColValue.rat 23)] "age"
      (by decide) (by decide)).1,
   (c8_stage_framing.1 [("age", ColValue.int 30)] [("imc", ColValue.rat 23)] "age"
      (by decide) (by decide)).2⟩

/-- C9: the pipeline is a pure function of the population size and the
seed-derived random stream: two runs with the same stream and N produce
identical tables, and there is a pair of distinct streams whose outputs differ
in a sampled column (here the stored systolic pressure). -/
theorem c9_determinism_and_sensitivity :
    (∀ (n : ℕ) (s1 s2 : ℕ → RowDraws), s1 = s2 → generateTable n s1 = generateTable n s2)
    ∧ (∃ s1 s2 : ℕ → RowDraws,
        (generateTable 1 s1).map (fun r => r.clin.pression_arterielle_systolique)
          ≠ (generateTable 1 s2).map (fun r => r.clin.pression_arterielle_systolique)) := by
  refine ⟨fun n s1 s2 h => by rw [h],
    ⟨fun _ => zeroRowDraws, fun _ => altRowDraws, ?_⟩⟩
  with_unfolding_all decide

theorem c9_determinism_witness :
    generateTable 3 (fun _ => zeroRowDraws) = generateTable 3 (fun _ => zeroRowDraws) :=
  c9_determinism_and_sensitivity.1 3 (fun _ => zeroRowDraws) (fun _ => zeroRowDraws) rfl

theorem decRepr_length (i : ℕ) : (decRepr i).length = (Nat.digits 10 i).length := by
  simp [decRepr]

theorem decRepr_length_gt_of_ge {i : ℕ} (hi : 1000000 ≤ i) : 6 < (decRepr i).length := by
  rw [decRepr_length]
  by_contra hle
  push_neg at hle
  have h1 : i < 10 ^ (Nat.digits 10 i).length := Nat.lt_base_pow_length_digits (by norm_num)
  have h2 : (10 : ℕ) ^ (Nat.digits 10 i).length ≤ 10 ^ 6 :=
    Nat.pow_le_pow_right (by norm_num) hle
  omega

theorem digits_ten_one : Nat.digits 10 1 = [1] := by
  rw [Nat.digits_def' (by norm_num : (1 : ℕ) < 10) (by norm_num)]
  norm_num

theorem digits_ten_million : Nat.digits 10 1000000 = List.replicate 6 0 ++ [1] := by
  have h : (1000000 : ℕ) = 10 ^ 6 * 1 := by norm_num
  rw [h, Nat.digits_base_pow_mul (by norm_num) (by norm_num), digits_ten_one]

theorem patientId_length (i : ℕ) :
    (patientId i).length = 2 + max 6 (Nat.digits 10 i).length := by
  have h : (patientId i).length = 2 + (zfill 6 (decRepr i)).length := by
    rw [patientId, String.length_append]
    congr 1
  rw [h, zfill, List.length_append, List.length_replicate, decRepr_length]
  omega

/-- C10: the patient identifiers are pairwise distinct; the identifier at
0-based position k of the stage-1 list is `patientId (k+1)` (the string SN
followed by the decimal digits of k+1 left-padded with zeros to at least six
digits); for i ≥ 1,000,000 the numeric suffix exceeds 6 digits, and at the
default N = 1,000,000 the first and last identifiers have different lengths
(8 and 9 characters). -/
theorem c10_patient_identifiers :
    (∀ i j : ℕ, 1 ≤ i → 1 ≤ j → i ≠ j → patientId i ≠ patientId j)
    ∧ (∀ n : ℤ, (patientIds n).Nodup)
    ∧ (∀ (n : ℤ) (k : ℕ), k < n.toNat → (patientIds n)[k]? = some (patientId (k + 1)))
    ∧ (∀ i : ℕ, 1000000 ≤ i → 6 < (decRepr i).length)
    ∧ (patientId 1000000).length = 9 ∧ (patientId 1).length = 8 := by
  refine ⟨fun i j hi hj hne h => hne (patientId_inj hi hj h), fun n => ?_, fun n k hk => ?_,
    fun i hi => decRepr_length_gt_of_ge hi, ?_, ?_⟩
  · apply List.Nodup.map
    · intro a b hab
      have := patientId_inj (Nat.le_add_left 1 a) (Nat.le_add_left 1 b) hab
      omega
    · exact List.nodup_range n.toNat
  · rw [patientIds, List.getElem?_map, List.getElem?_range hk, Option.map_some']
  · rw [patientId_length, digits_ten_million]
    simp
  · rw [patientId_length, digits_ten_one]
    simp

theorem c10_patient_identifiers_witness :
    patientId 1 ≠ patientId 2 ∧ 6 < (decRepr 1000000).length :=
  ⟨c10_patient_identifiers.1 1 2 (by decide) (by decide) (by decide),
   c10_patient_identifiers.2.2.2.1 1000000 (by decide)⟩
